import Mathlib

/-!
Formal model of the crawl-and-render scripts of this repository, centred on
src/screenshot-first-section-crawler.js (the "first-section crawler"), with a
small model of the exit behaviour of src/screenshot-enhanced.js and of the
selector loop of src/screenshot-practical-deep-dive.js.

The browser is the nondeterministic environment: a RunEnv records what the
browser/network produced at each step (setup outcome, the contents of the
page container, the per-link navigation/extraction outcome, the wall-clock
date string).  The scripts themselves are deterministic functions of that
environment; crawlerRun below is the shallow embedding of the crawler script
as such a function.
-/

/- ===== JS string primitives used by the crawler ===== -/

/-- Model of JS String.prototype.trim on the character list of a string:
drop whitespace from both ends.  Used for textContent.trim() in the link
extractor (src/screenshot-first-section-crawler.js line 119). -/
def trimChars (l : List Char) : List Char :=
  ((l.dropWhile Char.isWhitespace).reverse.dropWhile Char.isWhitespace).reverse

/-- JS value.trim() on strings. -/
def jsTrim (s : String) : String := ⟨trimChars s.data⟩

/-- Decimal digit to its character, as produced by JS String(number). -/
def digitChar (d : Nat) : Char :=
  if d = 0 then '0' else if d = 1 then '1' else if d = 2 then '2'
  else if d = 3 then '3' else if d = 4 then '4' else if d = 5 then '5'
  else if d = 6 then '6' else if d = 7 then '7' else if d = 8 then '8'
  else if d = 9 then '9' else '?'

/-- Inverse of digitChar on decimal digit characters (anything else maps to 0). -/
def charDigit (c : Char) : Nat :=
  if c = '1' then 1 else if c = '2' then 2 else if c = '3' then 3
  else if c = '4' then 4 else if c = '5' then 5 else if c = '6' then 6
  else if c = '7' then 7 else if c = '8' then 8 else if c = '9' then 9 else 0

/-- Fuel-indexed big-endian decimal expansion; with fuel above n this is the
character sequence of JS String(n). -/
def decCharsAux : Nat → Nat → List Char
  | 0, _ => []
  | fuel + 1, n =>
    if n < 10 then [digitChar n]
    else decCharsAux fuel (n / 10) ++ [digitChar (n % 10)]

/-- Character sequence of JS String(n) for a natural number n. -/
def decChars (n : Nat) : List Char := decCharsAux (n + 1) n

/-- JS String(n) for a natural number n. -/
def jsNatStr (n : Nat) : String := ⟨decChars n⟩

/-- Reads a decimal character sequence back into a number (proof tool for
injectivity; not part of the source). -/
def decodeChars (l : List Char) : Nat :=
  l.foldl (fun acc c => acc * 10 + charDigit c) 0

/-- JS String.prototype.padStart(2, char zero) on a character list. -/
def padStart2 (l : List Char) : List Char :=
  List.replicate (2 - l.length) '0' ++ l

/-- String(linkNum).padStart(2, char zero): the zero-padded visitation number
used as a filename prelude (src/screenshot-first-section-crawler.js
lines 238 and 277). -/
def numPad2 (n : Nat) : String := ⟨padStart2 (decChars n)⟩

/-- One character of the regex replace(/[^a-z0-9]/gi, dash): an ASCII letter
or digit is kept, everything else becomes a dash. -/
def sanitizeChar (c : Char) : Char :=
  if ('a' ≤ c && c ≤ 'z') || ('A' ≤ c && c ≤ 'Z') || ('0' ≤ c && c ≤ '9') then c
  else '-'

/-- The second regex replace (dash-run collapsing): collapse each run of dashes to one dash. -/
def collapseDashes : List Char → List Char
  | [] => []
  | [c] => [c]
  | c1 :: c2 :: rest =>
    if c1 = '-' && c2 = '-' then collapseDashes (c2 :: rest)
    else c1 :: collapseDashes (c2 :: rest)

/-- safeFilename from src/screenshot-first-section-crawler.js lines 195-199:
replace every non-alphanumeric character with a dash, collapse dash
runs, lowercase, and truncate to 50 characters. -/
def safeFilename (text : String) : String :=
  ⟨((collapseDashes (text.data.map sanitizeChar)).map Char.toLower).take 50⟩

/-- Markdown filename of a visited link (line 277):
String(linkNum).padStart(2, zero) + dash + safeFilename + .md suffix. -/
def mdFilename (num : Nat) (text : String) : String :=
  numPad2 num ++ "-" ++ safeFilename text ++ ".md"

/-- Screenshot filename of a visited link (line 238). -/
def screenshotFilename (num : Nat) (text : String) : String :=
  numPad2 num ++ "-" ++ safeFilename text ++ ".png"

/- ===== Link extraction (STEP 2 of the crawler, lines 110-175) ===== -/

/-- An anchor element with an href attribute inside the container, as the
in-page extraction function sees it: its textContent, resolved href, and
title attribute. -/
structure Anchor where
  textContent : String
  href : String
  title : String
deriving DecidableEq

/-- A link record as built at lines 118-122: trimmed text, href, and
title defaulting (by JS truthiness) to the trimmed text. -/
structure Link where
  text : String
  href : String
  title : String
deriving DecidableEq

/-- Per-anchor mapping of lines 118-122. -/
def anchorLink (a : Anchor) : Link :=
  { text := jsTrim a.textContent
    href := a.href
    title := if a.title != "" then a.title else jsTrim a.textContent }

/-- Lines 117-123: map every a[href] descendant of the container to a link
record, then keep those with truthy (nonempty) href and text.  Document
order of the anchors is preserved; nothing is deduplicated. -/
def extractLinks (anchors : List Anchor) : List Link :=
  (anchors.map anchorLink).filter (fun l => l.href != "" && l.text != "")

/-- Value returned by the page.evaluate of lines 110-137: either an error
record (container missing) or the links plus the cleaned container HTML. -/
inductive WrapperData where
  | err (msg : String)
  | ok (links : List Link) (html : String)
deriving DecidableEq

/-- The extraction result as a function of the state of the page: the
container is either absent, or present with its anchor list (document order)
and its class-stripped innerHTML. -/
def mainWrapperData (wrapper : Option (List Anchor × String)) : WrapperData :=
  match wrapper with
  | none => .err "Could not find #main-wrapper element"
  | some (anchors, html) => .ok (extractLinks anchors) html

/- ===== Per-link crawl step (STEP 4, lines 190-352) ===== -/

/-- Data extracted from a successfully visited page (lines 249-270), the
fields that feed the index entry and the crawl result. -/
structure PageData where
  title : String
  url : String
  h1 : String
  metaDescription : String
deriving DecidableEq

/-- What the environment did for one link of the loop body (lines 205-351):
everything succeeded; or some step threw before the page.screenshot call of
line 242 completed (navigation, scrolling, the screenshot itself); or a step
threw after the screenshot file was on disk (content extraction, markdown
conversion, the markdown write). -/
inductive LinkOutcome where
  | ok (pd : PageData)
  | failBeforeShot (msg : String)
  | failAfterShot (msg : String)
deriving DecidableEq

/-- Does a failure outcome carry a nonempty message?  (True for the ok
outcome.)  Hypothesis predicate for claims about error messages. -/
def msgOk : LinkOutcome → Bool
  | .ok _ => true
  | .failBeforeShot m => m != ""
  | .failAfterShot m => m != ""

/-- One element of the results array: the success record pushed at
lines 329-334 or the error record pushed at lines 345-350.  Absent JS
object fields are modelled as none. -/
structure CrawlResult where
  success : Bool
  link : String
  url : String
  filename : Option String
  error : Option String
deriving DecidableEq

/-- The CrawlResult recorded for link number num (1-based) under a given
outcome. -/
def resultFor (num : Nat) (l : Link) (oc : LinkOutcome) : CrawlResult :=
  match oc with
  | .ok pd =>
    { success := true, link := l.text, url := pd.url
      filename := some (mdFilename num l.text), error := none }
  | .failBeforeShot msg =>
    { success := false, link := l.text, url := l.href
      filename := none, error := some msg }
  | .failAfterShot msg =>
    { success := false, link := l.text, url := l.href
      filename := none, error := some msg }

/-- Index entry appended on success, lines 320-327. -/
def okIndexEntry (num : Nat) (l : Link) (pd : PageData) : String :=
  "### " ++ jsNatStr num ++ ". [" ++ l.text ++ "](" ++ mdFilename num l.text ++ ")\n\n"
    ++ "- **URL:** " ++ pd.url ++ "\n"
    ++ "- **Title:** " ++ pd.title ++ "\n"
    ++ (if pd.metaDescription != "" then "- **Description:** " ++ pd.metaDescription ++ "\n" else "")
    ++ "\n![Preview](images/" ++ screenshotFilename num l.text ++ ")\n\n"
    ++ "---\n\n"

/-- Index entry appended on a per-link error, lines 340-343. -/
def errIndexEntry (num : Nat) (l : Link) (msg : String) : String :=
  "### " ++ jsNatStr num ++ ". " ++ l.text ++ " ⚠️ ERROR\n\n"
    ++ "- **URL:** " ++ l.href ++ "\n"
    ++ "- **Error:** " ++ msg ++ "\n\n"
    ++ "---\n\n"

/-- The index entry for link number num under a given outcome. -/
def indexEntryFor (num : Nat) (l : Link) (oc : LinkOutcome) : String :=
  match oc with
  | .ok pd => okIndexEntry num l pd
  | .failBeforeShot msg => errIndexEntry num l msg
  | .failAfterShot msg => errIndexEntry num l msg

/-- Markdown files written for this link: exactly one on success (line 316),
none on any failure. -/
def mdFilesFor (num : Nat) (l : Link) (oc : LinkOutcome) : List String :=
  match oc with
  | .ok _ => [mdFilename num l.text]
  | .failBeforeShot _ => []
  | .failAfterShot _ => []

/-- Screenshot files written for this link: the screenshot of line 242 is on
disk unless the failure struck before it. -/
def imageFilesFor (num : Nat) (l : Link) (oc : LinkOutcome) : List String :=
  match oc with
  | .ok _ => [screenshotFilename num l.text]
  | .failBeforeShot _ => []
  | .failAfterShot _ => [screenshotFilename num l.text]

/-- Mutable state threaded through the for loop of lines 192-352: the
results array, the accumulated index markdown, and the files written so far
(split by kind). -/
structure LoopState where
  results : List CrawlResult
  indexMd : String
  mdFiles : List String
  imageFiles : List String
deriving DecidableEq

/-- Effect of one loop iteration (body of the for loop, lines 205-351) on
the loop state, for link number num. -/
def stepLink (num : Nat) (l : Link) (oc : LinkOutcome) (st : LoopState) : LoopState :=
  { results := st.results ++ [resultFor num l oc]
    indexMd := st.indexMd ++ indexEntryFor num l oc
    mdFiles := st.mdFiles ++ mdFilesFor num l oc
    imageFiles := st.imageFiles ++ imageFilesFor num l oc }

/-- The for loop of lines 192-352: iterate over the remaining links, i being
the 0-based index of the first of them; every link is attempted exactly
once, failures included. -/
def crawlLoop (oc : Nat → LinkOutcome) : List Link → Nat → LoopState → LoopState
  | [], _, st => st
  | l :: ls, i, st => crawlLoop oc ls (i + 1) (stepLink (i + 1) l (oc i) st)

/-- Index document header, lines 180-185; date is the
new Date().toISOString() value at run time. -/
def indexHeader (date : String) (numLinks : Nat) : String :=
  "# Main Wrapper Links Crawl\n\n"
    ++ "**Date:** " ++ date ++ "\n\n"
    ++ "**Source:** https://www.ideabrowser.com/\n\n"
    ++ "**Total Links Found:** " ++ jsNatStr numLinks ++ "\n\n"
    ++ "---\n\n"
    ++ "## Links\n\n"

/- Closed forms of the loop accumulators (proof targets, defined by the same
per-link functions the loop uses). -/

/-- The results list the loop produces for the links from 0-based index i on. -/
def resultsList (oc : Nat → LinkOutcome) : List Link → Nat → List CrawlResult
  | [], _ => []
  | l :: ls, i => resultFor (i + 1) l (oc i) :: resultsList oc ls (i + 1)

/-- The index entries, one per link in visitation order. -/
def indexEntries (oc : Nat → LinkOutcome) : List Link → Nat → List String
  | [], _ => []
  | l :: ls, i => indexEntryFor (i + 1) l (oc i) :: indexEntries oc ls (i + 1)

/-- Concatenation of the index entries in visitation order. -/
def entriesConcat (oc : Nat → LinkOutcome) : List Link → Nat → String
  | [], _ => ""
  | l :: ls, i => indexEntryFor (i + 1) l (oc i) ++ entriesConcat oc ls (i + 1)

/-- All markdown files the loop writes. -/
def mdFilesList (oc : Nat → LinkOutcome) : List Link → Nat → List String
  | [], _ => []
  | l :: ls, i => mdFilesFor (i + 1) l (oc i) ++ mdFilesList oc ls (i + 1)

/-- All screenshot files the loop writes. -/
def imageFilesList (oc : Nat → LinkOutcome) : List Link → Nat → List String
  | [], _ => []
  | l :: ls, i => imageFilesFor (i + 1) l (oc i) ++ imageFilesList oc ls (i + 1)

/- ===== The whole crawler run ===== -/

/-- Everything the environment decides during one run of the crawler
script: whether setup (browser launch, homepage navigation, the waits)
threw and with what message; the state of the #main-wrapper container
(absent, or its anchors in document order plus its class-stripped HTML);
the [id] elements available for diagnosis logging; the outcome of each
per-link iteration; and the toISOString date string. -/
structure RunEnv where
  setupError : Option String
  wrapper : Option (List Anchor × String)
  sections : List (String × String)
  outcome : Nat → LinkOutcome
  date : String

/-- Observable outcome of one run of the crawler script: the process exit
code, the in-memory results array, the INDEX.md contents if written, whether
results.json was written, the markdown and image files written for links,
whether main-wrapper.html was written, and the [id] diagnosis listing if it
was logged. -/
structure RunOutput where
  exitCode : Nat
  results : List CrawlResult
  indexMd : Option String
  resultsJsonWritten : Bool
  mdFiles : List String
  imageFiles : List String
  wrapperHtmlWritten : Bool
  loggedSections : Option (List (String × String))
deriving DecidableEq

/-- The crawler script (src/screenshot-first-section-crawler.js) as a
function of its environment.  A setup error is caught by the outer catch of
lines 383-385, logged, and swallowed; the process then exits 0 from the
finally block.  A missing container logs the available [id] sections and
returns (lines 139-149).  An empty link list returns before the index is
created (lines 172-175).  Otherwise the loop of lines 192-352 runs over
every link, and INDEX.md and results.json are written (lines 357-363).
main-wrapper.html is written when the container HTML is truthy
(lines 157-163). -/
def crawlerRun (env : RunEnv) : RunOutput :=
  match env.setupError with
  | some _ =>
    { exitCode := 0, results := [], indexMd := none, resultsJsonWritten := false
      mdFiles := [], imageFiles := [], wrapperHtmlWritten := false, loggedSections := none }
  | none =>
    match env.wrapper with
    | none =>
      { exitCode := 0, results := [], indexMd := none, resultsJsonWritten := false
        mdFiles := [], imageFiles := [], wrapperHtmlWritten := false
        loggedSections := some env.sections }
    | some (anchors, html) =>
      let links := extractLinks anchors
      if links.isEmpty then
        { exitCode := 0, results := [], indexMd := none, resultsJsonWritten := false
          mdFiles := [], imageFiles := [], wrapperHtmlWritten := html != ""
          loggedSections := none }
      else
        let st := crawlLoop env.outcome links 0
          { results := [], indexMd := indexHeader env.date links.length
            mdFiles := [], imageFiles := [] }
        { exitCode := 0, results := st.results, indexMd := some st.indexMd
          resultsJsonWritten := true, mdFiles := st.mdFiles, imageFiles := st.imageFiles
          wrapperHtmlWritten := html != "", loggedSections := none }

/-- Exit code of src/screenshot-enhanced.js as a function of whether its
try block threw (setup failure) and of the per-step errors its inner
try/catch blocks caught and logged: the catch of lines 203-205 rethrows and
the final .catch of lines 211-214 calls process.exit(1); inner catches
(navigation probe, popups, clicks) never rethrow, so they leave the exit
code untouched. -/
def enhancedExitCode (setupError : Option String) (_innerErrors : List String) : Nat :=
  match setupError with
  | some _ => 1
  | none => 0

/- ===== Content region selection (per-link renderer, lines 249-270) ===== -/

/-- A DOM subtree: a text node, or an element with tag, id, class list, and
children in document order. -/
inductive DomNode where
  | text (s : String)
  | elem (tag : String) (id : String) (classes : List String) (children : List DomNode)

mutual

/-- Serialize a node (opening tag, children, closing tag). -/
def renderNode : DomNode → String
  | .text s => s
  | .elem tag _ _ children => "<" ++ tag ++ ">" ++ renderList children ++ "</" ++ tag ++ ">"

/-- Serialize a node list; for an element this is its innerHTML. -/
def renderList : List DomNode → String
  | [] => ""
  | n :: ns => renderNode n ++ renderList ns

end

/-- element.innerHTML. -/
def innerHTML : DomNode → String
  | .text s => s
  | .elem _ _ _ children => renderList children

mutual

/-- querySelector semantics: the first node of the subtree, in document
(pre-order) order, satisfying the predicate. -/
def qsNode (p : DomNode → Bool) : DomNode → Option DomNode
  | .text _ => none
  | .elem t i c cs =>
    if p (.elem t i c cs) then some (.elem t i c cs) else qsList p cs

/-- querySelector over a forest of siblings in document order. -/
def qsList (p : DomNode → Bool) : List DomNode → Option DomNode
  | [] => none
  | n :: ns =>
    match qsNode p n with
    | some r => some r
    | none => qsList p ns

end

mutual

/-- querySelectorAll(sel).forEach(el.remove()): drop every matching node of
the subtree, keeping the rest. -/
def stripNode (p : DomNode → Bool) : DomNode → Option DomNode
  | .text s => some (.text s)
  | .elem t i c cs =>
    if p (.elem t i c cs) then none else some (.elem t i c (stripList p cs))

/-- Removal over a forest of siblings. -/
def stripList (p : DomNode → Bool) : List DomNode → List DomNode
  | [] => []
  | n :: ns =>
    match stripNode p n with
    | none => stripList p ns
    | some m => m :: stripList p ns

end

/-- A simple CSS selector: tag name, class, or id. -/
inductive Sel where
  | tagSel (t : String)
  | classSel (c : String)
  | idSel (i : String)

/-- Whether a node matches a simple selector. -/
def selMatches (s : Sel) (n : DomNode) : Bool :=
  match s, n with
  | .tagSel t, .elem tg _ _ _ => t == tg
  | .classSel c, .elem _ _ cls _ => cls.contains c
  | .idSel i, .elem _ id2 _ _ => i == id2
  | _, .text _ => false

/-- Whether a node matches any selector of a comma-separated group. -/
def matchesAny (sels : List Sel) (n : DomNode) : Bool :=
  sels.any (fun s => selMatches s n)

/-- The grouped selector of line 260: main, article, .content, .main,
#content. -/
def contentCandidates : List Sel :=
  [.tagSel "main", .tagSel "article", .classSel "content", .classSel "main", .idSel "content"]

/-- The stripper of line 252: script, style, nav, header, footer, .nav,
.menu, .sidebar. -/
def nonContentSels : List Sel :=
  [.tagSel "script", .tagSel "style", .tagSel "nav", .tagSel "header", .tagSel "footer",
   .classSel "nav", .classSel "menu", .classSel "sidebar"]

/-- clone.innerHTML after the removals of line 252, for a body given as its
child forest. -/
def strippedBodyHTML (body : List DomNode) : String :=
  renderList (stripList (matchesAny nonContentSels) body)

/-- Line 260 of the crawler:
document.querySelector(grouped candidates)?.innerHTML || clone.innerHTML.
The query runs on the original (unstripped) document and returns the first
match in document order; the stripped clone is used only when no candidate
matches or the match has falsy (empty) innerHTML. -/
def mainContentHTML (body : List DomNode) : String :=
  match qsList (matchesAny contentCandidates) body with
  | some n => if innerHTML n = "" then strippedBodyHTML body else innerHTML n
  | none => strippedBodyHTML body

/-- First match by selector precedence: try each selector in order over the
whole forest, take the first selector that matches anywhere.  This is the
loop shape of src/screenshot-practical-deep-dive.js lines 286-305. -/
def firstBySelOrder (sels : List Sel) (body : List DomNode) : Option DomNode :=
  match sels with
  | [] => none
  | s :: rest =>
    match qsList (selMatches s) body with
    | some n => some n
    | none => firstBySelOrder rest body

/-- Modelled from the spec: the claimed selection rule — try the candidate
selectors in a fixed precedence order, take the first match, and take the
selected region from the stripped copy of the body; fall back to the whole
stripped body.  Written for comparison with mainContentHTML, which embeds
what line 260 of the crawler actually does. -/
def mainContentClaimed (body : List DomNode) : String :=
  let stripped := stripList (matchesAny nonContentSels) body
  match firstBySelOrder contentCandidates stripped with
  | some n => innerHTML n
  | none => renderList stripped

/- ===== Concrete demonstration inputs ===== -/

/-- A page data record for demonstration runs. -/
def samplePage : PageData :=
  { title := "Idea Browser", url := "https://www.ideabrowser.com/idea"
    h1 := "Todays Idea", metaDescription := "Daily startup ideas" }

/-- Two anchors with distinct texts but one href: the extractor keeps both. -/
def dupAnchors : List Anchor :=
  [⟨"Idea of the Day", "https://www.ideabrowser.com/idea-of-the-day", ""⟩,
   ⟨"See the idea", "https://www.ideabrowser.com/idea-of-the-day", ""⟩]

/-- A single container anchor for demonstration runs. -/
def oneAnchor : Anchor := ⟨"Idea of the Day", "https://www.ideabrowser.com/idea", ""⟩

/-- Environment for a run with one link, a success outcome, and a fixed
date. -/
def dateEnvA : RunEnv :=
  { setupError := none, wrapper := some ([oneAnchor], "<div>x</div>")
    sections := [], outcome := fun _ => .ok samplePage
    date := "2025-07-14T09:00:00.000Z" }

/-- Same run, one day later. -/
def dateEnvB : RunEnv :=
  { dateEnvA with date := "2025-07-15T09:00:00.000Z" }

/-- Same run with a different diagnosis listing (irrelevant to the index). -/
def dateEnvA2 : RunEnv :=
  { dateEnvA with sections := [("root", "DIV")] }

/-- Environment where the only link fails after its screenshot was taken. -/
def afterShotEnv : RunEnv :=
  { setupError := none, wrapper := some ([oneAnchor], "")
    sections := [], outcome := fun _ => .failAfterShot "Execution context was destroyed"
    date := "2025-07-14T09:00:00.000Z" }

/-- Environment where browser launch fails: a setup-level failure. -/
def launchFailEnv : RunEnv :=
  { setupError := some "Failed to launch the browser process"
    wrapper := none, sections := [], outcome := fun _ => .failBeforeShot "x", date := "" }

/-- Environment where the homepage has no #main-wrapper element. -/
def noWrapperEnv : RunEnv :=
  { setupError := none, wrapper := none
    sections := [("__next", "DIV"), ("root", "DIV")]
    outcome := fun _ => .failBeforeShot "x", date := "" }

/-- Two container anchors for demonstration runs. -/
def twoAnchors : List Anchor :=
  [oneAnchor, ⟨"Trends", "https://www.ideabrowser.com/trends", ""⟩]

/-- Two-link environment: first link succeeds, every later one times out. -/
def twoLinkEnv : RunEnv :=
  { setupError := none
    wrapper := some (twoAnchors, "<div></div>")
    sections := []
    outcome := fun i => if i = 0 then .ok samplePage
                        else .failBeforeShot "Navigation timeout of 30000 ms exceeded"
    date := "2025-07-14T09:00:00.000Z" }

/-- One-link environment where navigation always times out. -/
def timeoutEnv : RunEnv :=
  { setupError := none, wrapper := some ([oneAnchor], "")
    sections := []
    outcome := fun _ => .failBeforeShot "Navigation timeout of 30000 ms exceeded"
    date := "2025-07-14T09:00:00.000Z" }

/-- The link the extractor produces from oneAnchor. -/
def oneLink : Link :=
  { text := "Idea of the Day", href := "https://www.ideabrowser.com/idea"
    title := "Idea of the Day" }

/-- Body forest with a .content div before a main element (which contains a
script): document order and selector precedence disagree on it. -/
def demoBody : List DomNode :=
  [.elem "div" "" ["content"] [.text "A"],
   .elem "main" "" [] [.elem "script" "" [] [.text "S"], .text "B"]]

/-- Body forest whose only candidate is a main element containing a script. -/
def scriptBody : List DomNode :=
  [.elem "main" "" [] [.elem "script" "" [] [.text "S"], .text "B"]]

/-- The first candidate match of demoBody in document order. -/
def demoMatchNode : DomNode := .elem "div" "" ["content"] [.text "A"]

/-- The link the extractor produces from the first anchor of dupAnchors. -/
def oneLinkDup : Link :=
  { text := "Idea of the Day", href := "https://www.ideabrowser.com/idea-of-the-day"
    title := "Idea of the Day" }

/-- The failure result recorded in the timeoutEnv run. -/
def timeoutResult : CrawlResult :=
  { success := false, link := "Idea of the Day", url := "https://www.ideabrowser.com/idea"
    filename := none, error := some "Navigation timeout of 30000 ms exceeded" }

/- ===== Helper lemmas: strings and decimal numbering ===== -/

theorem string_append_assoc (a b c : String) : a ++ b ++ c = a ++ (b ++ c) :=
  String.ext (by simp [List.append_assoc])

theorem string_append_empty (s : String) : s ++ "" = s :=
  String.ext (by simp)

theorem charDigit_digitChar : ∀ d < 10, charDigit (digitChar d) = d := by decide

theorem digitChar_ne_dash (d : Nat) : digitChar d ≠ '-' := by
  unfold digitChar
  split_ifs <;> decide

theorem mem_decCharsAux :
    ∀ fuel n c, c ∈ decCharsAux fuel n → ∃ d, c = digitChar d := by
  intro fuel
  induction fuel with
  | zero => intro n c hc; simp [decCharsAux] at hc
  | succ fuel ih =>
    intro n c hc
    rw [decCharsAux] at hc
    by_cases h : n < 10
    · rw [if_pos h] at hc
      simp at hc
      exact ⟨n, hc⟩
    · rw [if_neg h] at hc
      rcases List.mem_append.mp hc with h1 | h2
      · exact ih (n / 10) c h1
      · simp at h2
        exact ⟨n % 10, h2⟩

theorem dash_not_mem_numPad (n : Nat) : '-' ∉ padStart2 (decChars n) := by
  intro hmem
  rcases List.mem_append.mp hmem with h1 | h2
  · have := List.eq_of_mem_replicate h1
    simp at this
  · rcases mem_decCharsAux (n + 1) n '-' h2 with ⟨d, hd⟩
    exact digitChar_ne_dash d hd.symm

theorem decode_decCharsAux :
    ∀ fuel n, n ≤ fuel → decodeChars (decCharsAux (fuel + 1) n) = n := by
  intro fuel
  induction fuel with
  | zero =>
    intro n hn
    interval_cases n
    decide
  | succ fuel ih =>
    intro n hn
    rw [decCharsAux]
    by_cases h : n < 10
    · simp only [if_pos h]
      simpa [decodeChars] using charDigit_digitChar n h
    · simp only [if_neg h]
      have h10 : 10 ≤ n := Nat.le_of_not_lt h
      have hdiv : n / 10 ≤ fuel := by
        have : n / 10 < n := Nat.div_lt_self (by omega) (by omega)
        omega
      have ihd := ih (n / 10) hdiv
      simp only [decodeChars, List.foldl_append] at *
      simp [ihd]
      have hc := charDigit_digitChar (n % 10) (Nat.mod_lt _ (by omega))
      simp [List.foldl, hc]
      omega

theorem decode_decChars (n : Nat) : decodeChars (decChars n) = n :=
  decode_decCharsAux n n (Nat.le_refl n)

theorem charDigit_zero : charDigit '0' = 0 := by decide

theorem decodeChars_replicate_zero_append (k : Nat) (l : List Char) :
    decodeChars (List.replicate k '0' ++ l) = decodeChars l := by
  induction k with
  | zero => simp
  | succ k ih =>
    rw [List.replicate_succ, List.cons_append]
    simpa [decodeChars, charDigit_zero] using ih

theorem decode_numPad (n : Nat) : decodeChars (padStart2 (decChars n)) = n := by
  rw [padStart2, decodeChars_replicate_zero_append, decode_decChars]

theorem numPad2_inj {n m : Nat} (h : numPad2 n = numPad2 m) : n = m := by
  have hd : padStart2 (decChars n) = padStart2 (decChars m) := congrArg String.data h
  calc n = decodeChars (padStart2 (decChars n)) := (decode_numPad n).symm
    _ = decodeChars (padStart2 (decChars m)) := by rw [hd]
    _ = m := decode_numPad m

theorem append_dash_cancel :
    ∀ (p1 p2 s1 s2 : List Char), '-' ∉ p1 → '-' ∉ p2 →
      p1 ++ '-' :: s1 = p2 ++ '-' :: s2 → p1 = p2 ∧ s1 = s2 := by
  intro p1
  induction p1 with
  | nil =>
    intro p2 s1 s2 h1 h2 heq
    cases p2 with
    | nil => simpa using heq
    | cons c p2 =>
      simp at heq
      exact absurd (heq.1 ▸ List.mem_cons_self c p2) h2
  | cons c p1 ih =>
    intro p2 s1 s2 h1 h2 heq
    cases p2 with
    | nil =>
      simp at heq
      exact absurd (heq.1 ▸ List.mem_cons_self c p1) h1
    | cons c2 p2 =>
      simp at heq
      rcases heq with ⟨hc, htail⟩
      have h1t : '-' ∉ p1 := fun hm => h1 (List.mem_cons_of_mem c hm)
      have h2t : '-' ∉ p2 := fun hm => h2 (List.mem_cons_of_mem c2 hm)
      rcases ih p2 s1 s2 h1t h2t htail with ⟨hp, hs⟩
      exact ⟨by rw [hc, hp], hs⟩

theorem numberedName_ne {n m : Nat} (hnm : n ≠ m) (s1 s2 t1 t2 : String) :
    numPad2 n ++ "-" ++ s1 ++ t1 ≠ numPad2 m ++ "-" ++ s2 ++ t2 := by
  intro h
  apply hnm
  have hd := congrArg String.data h
  simp only [String.data_append, List.append_assoc, List.singleton_append] at hd
  have hsplit := append_dash_cancel (numPad2 n).data (numPad2 m).data
    (s1.data ++ t1.data) (s2.data ++ t2.data)
    (dash_not_mem_numPad n) (dash_not_mem_numPad m) hd
  exact numPad2_inj (String.ext hsplit.1)

/-- C10: the content-document and screenshot filenames generated for
distinct links (0-based indices i and j, hence 1-based numbers i+1 and j+1)
are pairwise distinct, whatever the link texts are — even identical texts or
texts that sanitize to the same string — because the zero-padded visitation
number prelude differs. -/
theorem filenames_pairwise_distinct (i j : Nat) (ti tj : String) (hij : i ≠ j) :
    mdFilename (i + 1) ti ≠ mdFilename (j + 1) tj ∧
      screenshotFilename (i + 1) ti ≠ screenshotFilename (j + 1) tj := by
  have hnum : i + 1 ≠ j + 1 := fun h => hij (Nat.succ_injective h)
  exact ⟨numberedName_ne hnum (safeFilename ti) (safeFilename tj) ".md" ".md",
    numberedName_ne hnum (safeFilename ti) (safeFilename tj) ".png" ".png"⟩

/-- C10 witness: two links with texts that sanitize to the same string
("Idea of the Day" and "idea of the day!") still get distinct filenames. -/
theorem filenames_pairwise_distinct_witness :
    (0 : Nat) ≠ 1 ∧
      (mdFilename 1 "Idea of the Day" ≠ mdFilename 2 "idea of the day!" ∧
        screenshotFilename 1 "Idea of the Day" ≠ screenshotFilename 2 "idea of the day!") :=
  ⟨by decide, filenames_pairwise_distinct 0 1 "Idea of the Day" "idea of the day!" (by decide)⟩

/- ===== Helper lemmas: the crawl loop and the run ===== -/

theorem crawlLoop_eq (oc : Nat → LinkOutcome) :
    ∀ (ls : List Link) (i : Nat) (st : LoopState),
      crawlLoop oc ls i st =
        { results := st.results ++ resultsList oc ls i
          indexMd := st.indexMd ++ entriesConcat oc ls i
          mdFiles := st.mdFiles ++ mdFilesList oc ls i
          imageFiles := st.imageFiles ++ imageFilesList oc ls i } := by
  intro ls
  induction ls with
  | nil =>
    intro i st
    simp [crawlLoop, resultsList, entriesConcat, mdFilesList, imageFilesList,
      string_append_empty]
  | cons l ls ih =>
    intro i st
    rw [crawlLoop, ih]
    simp [stepLink, resultsList, entriesConcat, mdFilesList, imageFilesList,
      string_append_assoc]

theorem resultsList_length (oc : Nat → LinkOutcome) :
    ∀ (ls : List Link) (i : Nat), (resultsList oc ls i).length = ls.length := by
  intro ls
  induction ls with
  | nil => intro i; rfl
  | cons l ls ih => intro i; simp [resultsList, ih]

theorem indexEntries_length (oc : Nat → LinkOutcome) :
    ∀ (ls : List Link) (i : Nat), (indexEntries oc ls i).length = ls.length := by
  intro ls
  induction ls with
  | nil => intro i; rfl
  | cons l ls ih => intro i; simp [indexEntries, ih]

theorem resultsList_getElem? (oc : Nat → LinkOutcome) :
    ∀ (ls : List Link) (i k : Nat) (l : Link), ls[k]? = some l →
      (resultsList oc ls i)[k]? = some (resultFor (i + k + 1) l (oc (i + k))) := by
  intro ls
  induction ls with
  | nil => intro i k l h; simp at h
  | cons hd tl ih =>
    intro i k l h
    cases k with
    | zero =>
      simp at h
      subst h
      simp [resultsList]
    | succ k =>
      simp only [List.getElem?_cons_succ] at h
      have e1 : i + (k + 1) + 1 = i + 1 + k + 1 := by omega
      have e2 : i + (k + 1) = i + 1 + k := by omega
      rw [e1, e2]
      simpa [resultsList] using ih (i + 1) k l h

theorem indexEntries_getElem? (oc : Nat → LinkOutcome) :
    ∀ (ls : List Link) (i k : Nat) (l : Link), ls[k]? = some l →
      (indexEntries oc ls i)[k]? = some (indexEntryFor (i + k + 1) l (oc (i + k))) := by
  intro ls
  induction ls with
  | nil => intro i k l h; simp at h
  | cons hd tl ih =>
    intro i k l h
    cases k with
    | zero =>
      simp at h
      subst h
      simp [indexEntries]
    | succ k =>
      simp only [List.getElem?_cons_succ] at h
      have e1 : i + (k + 1) + 1 = i + 1 + k + 1 := by omega
      have e2 : i + (k + 1) = i + 1 + k := by omega
      rw [e1, e2]
      simpa [indexEntries] using ih (i + 1) k l h

theorem entriesConcat_foldr (oc : Nat → LinkOutcome) :
    ∀ (ls : List Link) (i : Nat),
      entriesConcat oc ls i = (indexEntries oc ls i).foldr (· ++ ·) "" := by
  intro ls
  induction ls with
  | nil => intro i; rfl
  | cons l ls ih => intro i; simp [entriesConcat, indexEntries, List.foldr_cons, ih]

theorem mem_resultsList (oc : Nat → LinkOutcome) :
    ∀ (ls : List Link) (i : Nat) (r : CrawlResult), r ∈ resultsList oc ls i →
      ∃ j l, ls[j]? = some l ∧ r = resultFor (i + j + 1) l (oc (i + j)) := by
  intro ls
  induction ls with
  | nil => intro i r h; simp [resultsList] at h
  | cons hd tl ih =>
    intro i r h
    rw [resultsList] at h
    rcases List.mem_cons.mp h with h0 | h1
    · exact ⟨0, hd, by simp, by simpa using h0⟩
    · rcases ih (i + 1) r h1 with ⟨j, l, hj, hr⟩
      refine ⟨j + 1, l, by simpa using hj, ?_⟩
      have e1 : i + (j + 1) + 1 = i + 1 + j + 1 := by omega
      have e2 : i + (j + 1) = i + 1 + j := by omega
      rw [e1, e2]
      exact hr

theorem resultsList_success_length (oc : Nat → LinkOutcome) :
    ∀ (ls : List Link) (i : Nat),
      ((resultsList oc ls i).filter (fun r => r.success)).length =
        (mdFilesList oc ls i).length := by
  intro ls
  induction ls with
  | nil => intro i; rfl
  | cons l ls ih =>
    intro i
    cases h : oc i <;>
      simp [resultsList, mdFilesList, resultFor, mdFilesFor, h, List.filter_cons, ih]

theorem padStart2_ne_nil (l : List Char) : padStart2 l ≠ [] := by
  intro h
  have hlen := congrArg List.length h
  rw [padStart2] at hlen
  simp only [List.length_append, List.length_replicate, List.length_nil] at hlen
  omega

theorem mdFilename_ne_empty (num : Nat) (t : String) : mdFilename num t ≠ "" := by
  intro h
  have hd := congrArg String.data h
  simp only [mdFilename, String.data_append] at hd
  rcases List.append_eq_nil.mp (List.append_eq_nil.mp (List.append_eq_nil.mp hd).1).1
    with ⟨hp, _⟩
  exact padStart2_ne_nil (decChars num) hp

theorem crawlerRun_fatal (env : RunEnv) (msg : String)
    (hs : env.setupError = some msg) :
    crawlerRun env =
      { exitCode := 0, results := [], indexMd := none, resultsJsonWritten := false
        mdFiles := [], imageFiles := [], wrapperHtmlWritten := false
        loggedSections := none } := by
  unfold crawlerRun
  rw [hs]

theorem crawlerRun_noWrapper (env : RunEnv)
    (hs : env.setupError = none) (hw : env.wrapper = none) :
    crawlerRun env =
      { exitCode := 0, results := [], indexMd := none, resultsJsonWritten := false
        mdFiles := [], imageFiles := [], wrapperHtmlWritten := false
        loggedSections := some env.sections } := by
  unfold crawlerRun
  rw [hs, hw]

theorem crawlerRun_noLinks (env : RunEnv) (anchors : List Anchor) (html : String)
    (hs : env.setupError = none) (hw : env.wrapper = some (anchors, html))
    (hempty : extractLinks anchors = []) :
    crawlerRun env =
      { exitCode := 0, results := [], indexMd := none, resultsJsonWritten := false
        mdFiles := [], imageFiles := [], wrapperHtmlWritten := html != ""
        loggedSections := none } := by
  unfold crawlerRun
  rw [hs, hw]
  simp [hempty]

theorem crawlerRun_ok (env : RunEnv) (anchors : List Anchor) (html : String)
    (hs : env.setupError = none) (hw : env.wrapper = some (anchors, html))
    (hne : extractLinks anchors ≠ []) :
    crawlerRun env =
      { exitCode := 0
        results := resultsList env.outcome (extractLinks anchors) 0
        indexMd := some (indexHeader env.date (extractLinks anchors).length ++
          entriesConcat env.outcome (extractLinks anchors) 0)
        resultsJsonWritten := true
        mdFiles := mdFilesList env.outcome (extractLinks anchors) 0
        imageFiles := imageFilesList env.outcome (extractLinks anchors) 0
        wrapperHtmlWritten := html != ""
        loggedSections := none } := by
  unfold crawlerRun
  rw [hs, hw]
  have hempty : (extractLinks anchors).isEmpty = false := by
    simpa [List.isEmpty_iff] using hne
  simp [hempty, crawlLoop_eq]

/- ===== Claim theorems ===== -/

/-- C1: for every run in which the extractor returns a list of links, the
loop produces exactly one CrawlResult per link, appended in visitation
order; the result of link k is a function of that link and of its own
outcome alone (so a failure at one link never prevents or alters the
others), and any failure outcome is recorded with success equal to false.
The loop is a total function, so it terminates after attempting each link
exactly once. -/
theorem crawl_loop_complete (env : RunEnv) (anchors : List Anchor) (html : String)
    (hs : env.setupError = none) (hw : env.wrapper = some (anchors, html)) :
    (crawlerRun env).results.length = (extractLinks anchors).length ∧
      (∀ k l, (extractLinks anchors)[k]? = some l →
        (crawlerRun env).results[k]? = some (resultFor (k + 1) l (env.outcome k))) ∧
      (∀ k l m, (extractLinks anchors)[k]? = some l →
        (env.outcome k = .failBeforeShot m ∨ env.outcome k = .failAfterShot m) →
        (resultFor (k + 1) l (env.outcome k)).success = false) := by
  have hrec : ∀ k l m, (env.outcome k = .failBeforeShot m ∨ env.outcome k = .failAfterShot m) →
      (resultFor (k + 1) l (env.outcome k)).success = false := by
    intro k l m hfail
    rcases hfail with h1 | h1 <;> rw [h1] <;> rfl
  by_cases hne : extractLinks anchors = []
  · rw [crawlerRun_noLinks env anchors html hs hw hne]
    refine ⟨by simp [hne], ?_, fun k l m h hf => hrec k l m hf⟩
    intro k l h
    rw [hne] at h
    simp at h
  · rw [crawlerRun_ok env anchors html hs hw hne]
    refine ⟨resultsList_length env.outcome (extractLinks anchors) 0, ?_,
      fun k l m h hf => hrec k l m hf⟩
    intro k l h
    simpa using resultsList_getElem? env.outcome (extractLinks anchors) 0 k l h

/-- C1 witness: a two-link run whose second link times out still yields two
results, and the first result is the success record of the first link. -/
theorem crawl_loop_complete_witness :
    (crawlerRun twoLinkEnv).results.length = (extractLinks twoAnchors).length ∧
      (crawlerRun twoLinkEnv).results[0]? = some (resultFor 1 oneLink (twoLinkEnv.outcome 0)) :=
  ⟨(crawl_loop_complete twoLinkEnv twoAnchors "<div></div>" rfl rfl).1,
    (crawl_loop_complete twoLinkEnv twoAnchors "<div></div>" rfl rfl).2.1 0 oneLink (by decide)⟩

/-- C2: when the #main-wrapper container is absent the in-page extraction
returns an error value (not an exception), the run visits no link and
produces no artifacts, the available [id] containers are logged for
diagnosis, and the process still exits 0. -/
theorem extractor_container_missing (env : RunEnv)
    (hs : env.setupError = none) (hw : env.wrapper = none) :
    mainWrapperData env.wrapper = WrapperData.err "Could not find #main-wrapper element" ∧
      (crawlerRun env).results = [] ∧ (crawlerRun env).mdFiles = [] ∧
      (crawlerRun env).imageFiles = [] ∧ (crawlerRun env).exitCode = 0 ∧
      (crawlerRun env).loggedSections = some env.sections := by
  rw [crawlerRun_noWrapper env hs hw, hw]
  exact ⟨rfl, rfl, rfl, rfl, rfl, rfl⟩

/-- C2 witness: on a homepage without #main-wrapper the run ends cleanly
after logging the two available [id] sections. -/
theorem extractor_container_missing_witness :
    mainWrapperData noWrapperEnv.wrapper =
        WrapperData.err "Could not find #main-wrapper element" ∧
      (crawlerRun noWrapperEnv).results = [] ∧ (crawlerRun noWrapperEnv).mdFiles = [] ∧
      (crawlerRun noWrapperEnv).imageFiles = [] ∧ (crawlerRun noWrapperEnv).exitCode = 0 ∧
      (crawlerRun noWrapperEnv).loggedSections = some noWrapperEnv.sections :=
  extractor_container_missing noWrapperEnv rfl rfl

/-- C3 counterexample: the extractor does not deduplicate by href — two
anchors sharing one href both survive extraction, so the extracted list is
not pairwise distinct on targetURL. -/
theorem extractor_not_dedup_cex :
    ¬ (extractLinks dupAnchors).Pairwise (fun a b => a.href ≠ b.href) := by decide

/-- C3 amended: the extracted list is in document order (a sublist of the
per-anchor mapping of the container anchors) and every extracted link has
nonempty trimmed text and nonempty href; duplicates by href are kept. -/
theorem extractor_order_and_filter (anchors : List Anchor) :
    (extractLinks anchors).Sublist (anchors.map anchorLink) ∧
      ∀ l, l ∈ extractLinks anchors → l.text ≠ "" ∧ l.href ≠ "" := by
  constructor
  · exact List.filter_sublist _
  · intro l hl
    rw [extractLinks, List.mem_filter] at hl
    rcases hl with ⟨_, hp⟩
    rw [Bool.and_eq_true, bne_iff_ne, bne_iff_ne] at hp
    exact ⟨hp.2, hp.1⟩

/-- C3 amended witness: the duplicate-href list is a sublist of its anchor
mapping, and its first member has nonempty text and href. -/
theorem extractor_order_and_filter_witness :
    (extractLinks dupAnchors).Sublist (dupAnchors.map anchorLink) ∧
      ((oneLinkDup.text ≠ "" ∧ oneLinkDup.href ≠ "")) :=
  ⟨(extractor_order_and_filter dupAnchors).1,
    (extractor_order_and_filter dupAnchors).2 oneLinkDup (by decide)⟩

/-- C4 counterexample: two runs over identical links with identical
outcomes, differing only in the wall-clock date, produce the same
CrawlResult list but different INDEX.md bytes — the index document is not a
pure function of the result list. -/
theorem index_writer_date_dependent_cex :
    (crawlerRun dateEnvA).results = (crawlerRun dateEnvB).results ∧
      (crawlerRun dateEnvA).indexMd ≠ (crawlerRun dateEnvB).indexMd := by
  constructor
  · rfl
  · decide

/-- C4 amended: the index document is a pure function of the run date, the
container state, and the per-link outcomes (which carry page title, URL and
description); two runs agreeing on those produce byte-identical INDEX.md
contents, whatever else differs in the environment. -/
theorem index_writer_deterministic (env1 env2 : RunEnv)
    (h1 : env1.setupError = none) (h2 : env2.setupError = none)
    (hd : env1.date = env2.date) (hw : env1.wrapper = env2.wrapper)
    (ho : ∀ i, env1.outcome i = env2.outcome i) :
    (crawlerRun env1).indexMd = (crawlerRun env2).indexMd := by
  have hoe : env1.outcome = env2.outcome := funext ho
  cases env1 with
  | mk se1 w1 sec1 oc1 d1 =>
    cases env2 with
    | mk se2 w2 sec2 oc2 d2 =>
      simp only at h1 h2 hd hw hoe
      subst h1 h2 hd hw hoe
      cases w1 with
      | none => rfl
      | some p =>
        cases p with
        | mk anchors html => rfl

/-- C4 amended witness: the same run with a different diagnosis listing
yields the same INDEX.md contents. -/
theorem index_writer_deterministic_witness :
    (crawlerRun dateEnvA).indexMd = (crawlerRun dateEnvA2).indexMd :=
  index_writer_deterministic dateEnvA dateEnvA2 rfl rfl rfl rfl (fun _ => rfl)

/-- C5: in any run whose error messages are nonempty (as Node and Puppeteer
messages are), every recorded result with success false carries a nonempty
error message and no filename, and every result with success true carries a
nonempty filename and no error message. -/
theorem result_fields_partition (env : RunEnv) (anchors : List Anchor) (html : String)
    (hs : env.setupError = none) (hw : env.wrapper = some (anchors, html))
    (hmsg : ∀ i, msgOk (env.outcome i) = true) :
    ∀ r, r ∈ (crawlerRun env).results →
      (r.success = false → ∃ m, r.error = some m ∧ m ≠ "" ∧ r.filename = none) ∧
      (r.success = true → ∃ f, r.filename = some f ∧ f ≠ "" ∧ r.error = none) := by
  by_cases hne : extractLinks anchors = []
  · rw [crawlerRun_noLinks env anchors html hs hw hne]
    intro r hr
    simp at hr
  · rw [crawlerRun_ok env anchors html hs hw hne]
    intro r hr
    rcases mem_resultsList env.outcome (extractLinks anchors) 0 r hr with ⟨j, l, hj, hr⟩
    subst hr
    have hm := hmsg (0 + j)
    cases hoc : env.outcome (0 + j) with
    | ok pd =>
      refine ⟨fun hfalse => ?_, fun _ => ?_⟩
      · simp [resultFor] at hfalse
      · exact ⟨mdFilename (0 + j + 1) l.text, rfl,
          mdFilename_ne_empty (0 + j + 1) l.text, rfl⟩
    | failBeforeShot m =>
      rw [hoc] at hm
      rw [msgOk, bne_iff_ne] at hm
      refine ⟨fun _ => ⟨m, rfl, hm, rfl⟩, fun htrue => ?_⟩
      simp [resultFor] at htrue
    | failAfterShot m =>
      rw [hoc] at hm
      rw [msgOk, bne_iff_ne] at hm
      refine ⟨fun _ => ⟨m, rfl, hm, rfl⟩, fun htrue => ?_⟩
      simp [resultFor] at htrue

/-- C5 witness: the failure result of a run whose only link times out
carries the timeout message and no filename. -/
theorem result_fields_partition_witness :
    ∃ m, timeoutResult.error = some m ∧ m ≠ "" ∧ timeoutResult.filename = none :=
  (result_fields_partition timeoutEnv [oneAnchor] "" rfl rfl (fun _ => rfl)
    timeoutResult (by decide)).1 rfl

/-- C6 counterexample: on a body whose .content div precedes a main element
the crawler picks the .content div (first match of the grouped query in
document order, not selector precedence), and on a body whose main element
contains a script the crawler returns the unstripped innerHTML — in both
cases diverging from the claimed precedence-ordered, stripped-copy
selection. -/
theorem main_content_selection_cex :
    mainContentHTML demoBody = "A" ∧ mainContentClaimed demoBody = "B" ∧
      mainContentHTML scriptBody = "<script>S</script>B" ∧
      mainContentClaimed scriptBody = "B" :=
  ⟨rfl, rfl, rfl, rfl⟩

/-- C6 amended: the renderer runs one grouped query (main, article,
.content, .main, #content) over the original document and takes the first
match in document order, using that element's unstripped innerHTML; only
when no candidate matches, or the match has empty innerHTML, does it fall
back to the body clone with script, style, nav, header, footer, .nav,
.menu, .sidebar removed. -/
theorem main_content_selection (body : List DomNode) :
    (qsList (matchesAny contentCandidates) body = none →
        mainContentHTML body = strippedBodyHTML body) ∧
      (∀ n, qsList (matchesAny contentCandidates) body = some n →
        innerHTML n ≠ "" → mainContentHTML body = innerHTML n) ∧
      (∀ n, qsList (matchesAny contentCandidates) body = some n →
        innerHTML n = "" → mainContentHTML body = strippedBodyHTML body) := by
  refine ⟨?_, ?_, ?_⟩
  · intro h
    rw [mainContentHTML, h]
  · intro n h hne
    rw [mainContentHTML, h]
    simp [hne]
  · intro n h he
    rw [mainContentHTML, h]
    simp [he]

/-- C6 amended witness: an empty body falls back to the stripped clone, and
the demonstration body resolves to the document-order first candidate. -/
theorem main_content_selection_witness :
    mainContentHTML ([] : List DomNode) = strippedBodyHTML [] ∧
      mainContentHTML demoBody = innerHTML demoMatchNode :=
  ⟨(main_content_selection []).1 rfl,
    (main_content_selection demoBody).2.1 demoMatchNode rfl (by decide)⟩

/-- C7 counterexample: a link that fails after its screenshot was captured
is recorded with success false, contributes no content document — yet its
image file is in the output directory, contradicting the claim that a
failed link contributes neither. -/
theorem failed_link_artifacts_cex :
    ((crawlerRun afterShotEnv).results.map (fun r => r.success)) = [false] ∧
      (crawlerRun afterShotEnv).mdFiles = [] ∧
      (crawlerRun afterShotEnv).imageFiles.length = 1 := by decide

/-- C7 amended: the run writes exactly the markdown files of successful
links (one each, none for failures) and exactly the screenshots of links
whose processing reached the screenshot step (successes and
after-screenshot failures); the markdown file count equals the success
count of the results list. -/
theorem artifact_files_characterization (env : RunEnv) (anchors : List Anchor)
    (html : String)
    (hs : env.setupError = none) (hw : env.wrapper = some (anchors, html)) :
    (crawlerRun env).mdFiles = mdFilesList env.outcome (extractLinks anchors) 0 ∧
      (crawlerRun env).imageFiles = imageFilesList env.outcome (extractLinks anchors) 0 ∧
      (crawlerRun env).mdFiles.length =
        ((crawlerRun env).results.filter (fun r => r.success)).length := by
  by_cases hne : extractLinks anchors = []
  · rw [crawlerRun_noLinks env anchors html hs hw hne, hne]
    exact ⟨rfl, rfl, rfl⟩
  · rw [crawlerRun_ok env anchors html hs hw hne]
    exact ⟨rfl, rfl, (resultsList_success_length env.outcome (extractLinks anchors) 0).symm⟩

/-- C7 amended witness: in the after-screenshot-failure run the markdown
and image file lists are exactly the closed forms, and the markdown count
matches the success count (zero). -/
theorem artifact_files_characterization_witness :
    (crawlerRun afterShotEnv).mdFiles =
        mdFilesList afterShotEnv.outcome (extractLinks [oneAnchor]) 0 ∧
      (crawlerRun afterShotEnv).imageFiles =
        imageFilesList afterShotEnv.outcome (extractLinks [oneAnchor]) 0 ∧
      (crawlerRun afterShotEnv).mdFiles.length =
        ((crawlerRun afterShotEnv).results.filter (fun r => r.success)).length :=
  artifact_files_characterization afterShotEnv [oneAnchor] "" rfl rfl

/-- C8: the index document is the date header followed by exactly one entry
per link, concatenated in the order the links were discovered (which is the
order they are visited); a failed link keeps its entry at its original
position. -/
theorem index_entries_in_order (env : RunEnv) (anchors : List Anchor) (html : String)
    (hs : env.setupError = none) (hw : env.wrapper = some (anchors, html))
    (hne : extractLinks anchors ≠ []) :
    (crawlerRun env).indexMd =
        some (indexHeader env.date (extractLinks anchors).length ++
          entriesConcat env.outcome (extractLinks anchors) 0) ∧
      entriesConcat env.outcome (extractLinks anchors) 0 =
        (indexEntries env.outcome (extractLinks anchors) 0).foldr (· ++ ·) "" ∧
      (indexEntries env.outcome (extractLinks anchors) 0).length =
        (extractLinks anchors).length ∧
      (∀ k l, (extractLinks anchors)[k]? = some l →
        (indexEntries env.outcome (extractLinks anchors) 0)[k]? =
          some (indexEntryFor (k + 1) l (env.outcome k))) := by
  rw [crawlerRun_ok env anchors html hs hw hne]
  refine ⟨rfl, entriesConcat_foldr env.outcome (extractLinks anchors) 0,
    indexEntries_length env.outcome (extractLinks anchors) 0, ?_⟩
  intro k l h
  simpa using indexEntries_getElem? env.outcome (extractLinks anchors) 0 k l h

/-- C8 witness: the timed-out single-link run has an index made of the
header plus one error entry, in position. -/
theorem index_entries_in_order_witness :
    (crawlerRun timeoutEnv).indexMd =
        some (indexHeader timeoutEnv.date (extractLinks [oneAnchor]).length ++
          entriesConcat timeoutEnv.outcome (extractLinks [oneAnchor]) 0) ∧
      (indexEntries timeoutEnv.outcome (extractLinks [oneAnchor]) 0)[0]? =
        some (indexEntryFor 1 oneLink (timeoutEnv.outcome 0)) :=
  ⟨(index_entries_in_order timeoutEnv [oneAnchor] "" rfl rfl (by decide)).1,
    (index_entries_in_order timeoutEnv [oneAnchor] "" rfl rfl (by decide)).2.2.2
      0 oneLink (by decide)⟩

/-- C9 counterexample: a failed browser launch is a setup-level failure,
yet the crawler process exits 0 — the outer catch logs and swallows the
error — contradicting the claim that the exit status is non-zero exactly
when a setup-level failure occurred. -/
theorem exit_code_cex :
    (crawlerRun launchFailEnv).exitCode = 0 ∧ launchFailEnv.setupError ≠ none := by
  exact ⟨rfl, by decide⟩

/-- C9 amended: the first-section crawler always exits 0 (setup failures
included, since its outer catch swallows them; per-link failures never
reach the exit code), while screenshot-enhanced.js exits non-zero exactly
when its setup threw, independently of the per-step errors its inner
catches absorbed. -/
theorem exit_codes :
    (∀ env : RunEnv, (crawlerRun env).exitCode = 0) ∧
      (∀ (se : Option String) (il : List String), enhancedExitCode se il ≠ 0 ↔ se ≠ none) ∧
      (∀ (se : Option String) (il1 il2 : List String),
        enhancedExitCode se il1 = enhancedExitCode se il2) := by
  refine ⟨?_, ?_, ?_⟩
  · intro env
    rcases env with ⟨se, w, sec, oc, d⟩
    rcases se with _ | e
    · rcases w with _ | p
      · rfl
      · rcases p with ⟨a, h⟩
        by_cases hE : (extractLinks a).isEmpty <;> simp [crawlerRun, hE]
    · rfl
  · intro se il
    cases se <;> simp [enhancedExitCode]
  · intro se il1 il2
    cases se <;> rfl

/-- C9 amended witness: the launch-failure run exits 0; the enhanced script
with a setup error exits non-zero; inner errors do not change its exit
code. -/
theorem exit_codes_witness :
    (crawlerRun launchFailEnv).exitCode = 0 ∧
      (enhancedExitCode (some "net::ERR_TIMED_OUT") [] ≠ 0 ↔
        (some "net::ERR_TIMED_OUT" : Option String) ≠ none) ∧
      enhancedExitCode none ["Could not click element"] = enhancedExitCode none [] :=
  ⟨exit_codes.1 launchFailEnv,
    exit_codes.2.1 (some "net::ERR_TIMED_OUT") [],
    exit_codes.2.2 none ["Could not click element"] []⟩
